import Mathlib

/-!
Verification of the EV battery-swap-station cloud simulation repository.

Shallow embedding of three Python modules:
  lambda_telemetry_handler.py  (telemetry validation and dual-sink persistence)
  lambda_api_handler.py        (read API over the fast store)
  station_simulator.py         (per-station probabilistic state machine)

Python floats are modelled as exact rationals; Python exceptions as an
Except monad over an error type; external stores as explicit state; the
random draws of the simulator and the fault behaviour of the external
stores as oracle inputs supplied per call.
-/

namespace EVBSS

/-- Model of the dynamic values a decoded JSON/Python payload may hold.
`vDec` models `decimal.Decimal` (produced by the DynamoDB normalization),
which in Python is neither an `int` nor a `float`; `vBool` is kept separate
but counts as numeric, since Python `bool` is a subclass of `int`. -/
inductive Value where
  | vStr : String → Value
  | vInt : Int → Value
  | vFloat : ℚ → Value
  | vBool : Bool → Value
  | vNone : Value
  | vDec : ℚ → Value
  | vList : List Value → Value
  | vDict : List (String × Value) → Value

/-- A Python dict with string keys, kept in insertion order. -/
abbrev Record := List (String × Value)

/-- `d.get(k)` / `k in d`: first-match lookup (dict keys are unique). -/
def getKey : Record → String → Option Value
  | [], _ => none
  | (k', v) :: rest, k => if k' = k then some v else getKey rest k

/-- `k in d`. -/
def hasKey (d : Record) (k : String) : Bool := (getKey d k).isSome

/-- `d[k] = v`: replace the value in place when the key exists,
append the pair otherwise. -/
def setKey (d : Record) (k : String) (v : Value) : Record :=
  if hasKey d k then
    (d : List (String × Value)).map (fun kv => if kv.1 = k then (k, v) else kv)
  else d ++ [(k, v)]

/-- Python exception kinds that the embedded code can raise. `clientError`
stands for the AWS SDK errors raised by a failing store call. -/
inductive PyErr where
  | valueError
  | attributeError
  | keyError
  | typeError
  | clientError
deriving DecidableEq

/-- `d[k]`: raises `KeyError` when the key is absent. -/
def pySubscript (d : Record) (k : String) : Except PyErr Value :=
  match getKey d k with
  | some v => Except.ok v
  | none => Except.error PyErr.keyError

/-! ### Model of `datetime.fromisoformat`

The handler parses `data["timestamp"].replace("Z", "+00:00")`.  We model
`fromisoformat` on the classic grammar it documents:
`YYYY-MM-DD`, optionally followed by a single separator character and
`HH(:MM(:SS(.fff or .ffffff)?)?)?`, optionally followed by an offset
`+HH:MM(:SS)?` or `-HH:MM(:SS)?`.  Anything else raises `ValueError`. -/

/-- Consume exactly `n` ASCII digits, most significant first. -/
def takeDigits : Nat → Nat → List Char → Option (Nat × List Char)
  | 0, acc, cs => some (acc, cs)
  | n + 1, acc, c :: cs =>
      if c.isDigit then takeDigits n (acc * 10 + (c.toNat - 48)) cs else none
  | _ + 1, _, [] => none

/-- Consume one expected character. -/
def expectChar (c : Char) : List Char → Option (List Char)
  | c' :: cs => if c' = c then some cs else none
  | [] => none

def isLeapYear (y : Nat) : Bool :=
  (y % 4 == 0 && y % 100 != 0) || (y % 400 == 0)

def daysInMonth (y m : Nat) : Nat :=
  if m = 2 then (if isLeapYear y then 29 else 28)
  else if m = 4 ∨ m = 6 ∨ m = 9 ∨ m = 11 then 30
  else 31

/-- The parsed components of a `datetime` value; `tzOffsetMinutes = none`
models a naive datetime. -/
structure PyDateTime where
  year : Nat
  month : Nat
  day : Nat
  hour : Nat
  minute : Nat
  second : Nat
  microsecond : Nat
  tzOffsetMinutes : Option Int
deriving DecidableEq

/-- Optional fractional-seconds part: a dot followed by exactly three or
exactly six digits. -/
def parseFraction (cs : List Char) : Option (Nat × List Char) :=
  match cs with
  | '.' :: rest =>
      let ds := rest.takeWhile (fun c => c.isDigit)
      let rest' := rest.dropWhile (fun c => c.isDigit)
      let v := ds.foldl (fun a c => a * 10 + (c.toNat - 48)) 0
      if ds.length = 3 then some (v * 1000, rest')
      else if ds.length = 6 then some (v, rest')
      else none
  | _ => some (0, cs)

/-- Optional UTC-offset part. -/
def parseTZ (cs : List Char) : Option (Option Int × List Char) :=
  match cs with
  | [] => some (none, [])
  | sign :: rest =>
      if sign = '+' ∨ sign = '-' then do
        let (h, r1) ← takeDigits 2 0 rest
        let r2 ← expectChar ':' r1
        let (m, r3) ← takeDigits 2 0 r2
        let r4 ← match r3 with
          | ':' :: r => do
              let (s, r') ← takeDigits 2 0 r
              if s ≤ 59 then some r' else none
          | _ => some r3
        if h ≤ 23 ∧ m ≤ 59 then
          let total : Int := (h : Int) * 60 + (m : Int)
          some (some (if sign = '-' then -total else total), r4)
        else none
      else none

/-- The time-of-day part with optional fraction and offset; must consume
the whole remaining input. -/
def parseTimePart (cs : List Char) : Option (Nat × Nat × Nat × Nat × Option Int) := do
  let (h, r1) ← takeDigits 2 0 cs
  match r1 with
  | ':' :: r => do
      let (mi, r2) ← takeDigits 2 0 r
      match r2 with
      | ':' :: r' => do
          let (s, r3) ← takeDigits 2 0 r'
          let (us, r4) ← parseFraction r3
          let (tz, r5) ← parseTZ r4
          if r5 = [] ∧ h ≤ 23 ∧ mi ≤ 59 ∧ s ≤ 59 then some (h, mi, s, us, tz) else none
      | _ => do
          let (tz, r3) ← parseTZ r2
          if r3 = [] ∧ h ≤ 23 ∧ mi ≤ 59 then some (h, mi, 0, 0, tz) else none
  | _ => do
      let (tz, r2) ← parseTZ r1
      if r2 = [] ∧ h ≤ 23 then some (h, 0, 0, 0, tz) else none

/-- Full ISO parse over a character list. -/
def parseIso (cs : List Char) : Option PyDateTime := do
  let (y, r1) ← takeDigits 4 0 cs
  let r2 ← expectChar '-' r1
  let (mo, r3) ← takeDigits 2 0 r2
  let r4 ← expectChar '-' r3
  let (d, r5) ← takeDigits 2 0 r4
  if 1 ≤ mo ∧ mo ≤ 12 ∧ 1 ≤ d ∧ d ≤ daysInMonth y mo then
    match r5 with
    | [] => some ⟨y, mo, d, 0, 0, 0, 0, none⟩
    | _ :: rest => do
        let (h, mi, s, us, tz) ← parseTimePart rest
        some ⟨y, mo, d, h, mi, s, us, tz⟩
  else none

/-- `datetime.fromisoformat`. -/
def fromisoformat (s : String) : Except PyErr PyDateTime :=
  match parseIso s.data with
  | some dt => Except.ok dt
  | none => Except.error PyErr.valueError

/-- `s.replace("Z", "+00:00")`: every occurrence replaced; the pattern is
a single character, so the charwise rendering is exact. -/
def replaceZ (s : String) : String :=
  String.join (s.data.map fun c => if c = 'Z' then "+00:00" else String.singleton c)

/-- `x.replace("Z", "+00:00")`: only `str` has `replace`; on any other
value the attribute access raises `AttributeError`. -/
def pyReplaceZ : Value → Except PyErr String
  | Value.vStr s => Except.ok (replaceZ s)
  | _ => Except.error PyErr.attributeError

/-- `datetime.fromisoformat(data["timestamp"].replace("Z", "+00:00"))`
with the exceptions each step can raise. -/
def parseRecordTimestamp (d : Record) : Except PyErr PyDateTime := do
  let tsv ← pySubscript d "timestamp"
  let s ← pyReplaceZ tsv
  fromisoformat s

/-! ### `validate_telemetry` -/

def required_fields : List String := ["station_id", "battery_available", "timestamp"]

def msgMissing (f : String) : String := "Missing required field: " ++ f

def msgStationId : String := "station_id must be a non-empty string"

def msgBattery : String := "battery_available must be a non-negative number"

def msgTimestamp : String := "timestamp must be valid ISO-8601 format"

/-- The required-fields loop: the message for the first missing field. -/
def checkRequired (data : Record) : Option String :=
  required_fields.findSome? fun f =>
    if hasKey data f then none else some (msgMissing f)

/-- `isinstance(x, (int, float))`: `bool` is an `int` subclass in Python,
`Decimal` is neither `int` nor `float`. -/
def isNumeric : Value → Bool
  | Value.vInt _ => true
  | Value.vFloat _ => true
  | Value.vBool _ => true
  | _ => false

/-- The numeric value used in comparisons (`True` compares as 1). -/
def numValue : Value → ℚ
  | Value.vInt n => (n : ℚ)
  | Value.vFloat q => q
  | Value.vBool b => if b then 1 else 0
  | _ => 0

/-- The ASCII whitespace characters `str.strip()` removes. -/
def pyIsSpace (c : Char) : Bool :=
  c = ' ' ∨ c = '\t' ∨ c = '\n' ∨ c = '\r' ∨ c = Char.ofNat 11 ∨ c = Char.ofNat 12

/-- `s.strip()` on ASCII input. -/
def pyStrip (s : String) : String :=
  String.mk (((s.data.dropWhile pyIsSpace).reverse.dropWhile pyIsSpace).reverse)

/-- `isinstance(v, str) and v.strip()`: a string that is non-empty after
stripping surrounding whitespace. -/
def isValidStationId : Value → Bool
  | Value.vStr s => !((pyStrip s).isEmpty)
  | _ => false

/-- `validate_telemetry` as a pure function: required fields, station-id
shape, battery count, timestamp parse, in this order, short-circuiting. -/
def validate_telemetry (data : Record) : Bool × Option String :=
  match checkRequired data with
  | some msg => (false, some msg)
  | none =>
    if !(isValidStationId ((getKey data "station_id").getD Value.vNone)) then
      (false, some msgStationId)
    else if !(isNumeric ((getKey data "battery_available").getD Value.vNone))
        || decide (numValue ((getKey data "battery_available").getD Value.vNone) < 0) then
      (false, some msgBattery)
    else
      match parseRecordTimestamp data with
      | Except.error _ => (false, some msgTimestamp)
      | Except.ok _ => (true, none)

/-- `validate_telemetry` in the exception monad: the timestamp try-block
catches exactly `ValueError` and `AttributeError`; any other exception
would escape the function. -/
def validateE (data : Record) : Except PyErr (Bool × Option String) :=
  match checkRequired data with
  | some msg => Except.ok (false, some msg)
  | none =>
    if !(isValidStationId ((getKey data "station_id").getD Value.vNone)) then
      Except.ok (false, some msgStationId)
    else if !(isNumeric ((getKey data "battery_available").getD Value.vNone))
        || decide (numValue ((getKey data "battery_available").getD Value.vNone) < 0) then
      Except.ok (false, some msgBattery)
    else
      match parseRecordTimestamp data with
      | Except.error e =>
          if e = PyErr.valueError ∨ e = PyErr.attributeError then
            Except.ok (false, some msgTimestamp)
          else Except.error e
      | Except.ok _ => Except.ok (true, none)

/-- Is the value a Python `str`? -/
def isStrValue : Value → Bool
  | Value.vStr _ => true
  | _ => false

/-! ### `convert_floats_to_decimal` -/

/-- The list branch of the conversion: only float items become Decimal;
dicts inside lists are left untouched, exactly as in the source. -/
def convertListItem : Value → Value
  | Value.vFloat q => Value.vDec q
  | v => v

/-- `convert_floats_to_decimal`: float values become Decimal, nested dicts
are converted recursively, list items are converted shallowly, everything
else is copied. -/
def convert_floats_to_decimal : Record → Record
  | [] => []
  | (k, Value.vFloat q) :: rest => (k, Value.vDec q) :: convert_floats_to_decimal rest
  | (k, Value.vDict d) :: rest =>
      (k, Value.vDict (convert_floats_to_decimal d)) :: convert_floats_to_decimal rest
  | (k, Value.vList xs) :: rest =>
      (k, Value.vList (xs.map convertListItem)) :: convert_floats_to_decimal rest
  | (k, v) :: rest => (k, v) :: convert_floats_to_decimal rest

/-! ### Model of `json.dumps`

`json.dumps(data, indent=2, default=str)` for the archival body and
`json.dumps(body)` for response bodies.  Floats are rendered in plain
decimal digits (every float in the system originates from a decimal
literal or a decimal string), Decimals are rendered through `default=str`
as quoted strings. -/

/-- Zero-pad a numeral to the given width. -/
def padNum (w n : Nat) : String :=
  let s := toString n
  String.mk (List.replicate (w - s.length) '0') ++ s

/-- Plain decimal rendering of a rational whose denominator divides a
power of ten, with at least one fractional digit, matching the `str` form
of the Python floats and Decimals that reach the serializer. -/
def decimalString (q : ℚ) : String :=
  let k := (((List.range 40).find? fun k => (q.num * ((10 : Int) ^ k)) % (q.den : Int) = 0)).getD 0
  let mag := ((q.num * ((10 : Int) ^ k)) / (q.den : Int)).natAbs
  let digits := padNum (k + 1) mag
  let n := digits.length
  (if q.num < 0 then "-" else "") ++
    (digits.take (n - k)) ++ "." ++ (if k = 0 then "0" else digits.drop (n - k))

def hexDigitChar (n : Nat) : Char :=
  if n < 10 then Char.ofNat (48 + n) else Char.ofNat (87 + n)

/-- JSON string escaping as `json.dumps` performs it on ASCII input. -/
def escapeChar (c : Char) : String :=
  if c = '"' then "\\\""
  else if c = '\\' then "\\\\"
  else if c = '\n' then "\\n"
  else if c = '\t' then "\\t"
  else if c = '\r' then "\\r"
  else if c = Char.ofNat 8 then "\\b"
  else if c = Char.ofNat 12 then "\\f"
  else if c.toNat < 32 then
    "\\u00" ++ String.mk [hexDigitChar (c.toNat / 16), hexDigitChar (c.toNat % 16)]
  else String.singleton c

def quoteStr (s : String) : String :=
  "\"" ++ String.join (s.data.map escapeChar) ++ "\""

/-- A run of spaces, used for indentation. -/
def padSpaces (n : Nat) : String := String.mk (List.replicate n ' ')

/-- Comma-join container entries: with `indent = some n` each entry goes
on its own line indented one level deeper, as `json.dumps(..., indent=n)`
renders it; with `indent = none` entries are joined by a comma and
space. `lv` is the nesting level of the container itself. -/
def joinEntries (indent : Option Nat) (lv : Nat) (items : List String) : String :=
  match indent with
  | none => String.intercalate ", " items
  | some n =>
      "\n" ++ String.intercalate ",\n" (items.map fun s => padSpaces ((lv + 1) * n) ++ s) ++
      "\n" ++ padSpaces (lv * n)

mutual

/-- Serialize one value at nesting level `lv`. -/
def dumpsValue (indent : Option Nat) (lv : Nat) : Value → String
  | Value.vStr s => quoteStr s
  | Value.vInt n => toString n
  | Value.vFloat q => decimalString q
  | Value.vBool b => if b then "true" else "false"
  | Value.vNone => "null"
  | Value.vDec q => quoteStr (decimalString q)
  | Value.vList xs =>
      if xs.isEmpty then "[]"
      else "[" ++ joinEntries indent lv (dumpsElems indent (lv + 1) xs) ++ "]"
  | Value.vDict fs =>
      if fs.isEmpty then "\x7b\x7d"
      else "\x7b" ++ joinEntries indent lv (dumpsEntries indent (lv + 1) fs) ++ "\x7d"

def dumpsElems (indent : Option Nat) (lv : Nat) : List Value → List String
  | [] => []
  | x :: xs => dumpsValue indent lv x :: dumpsElems indent lv xs

def dumpsEntries (indent : Option Nat) (lv : Nat) : List (String × Value) → List String
  | [] => []
  | (k, v) :: fs => (quoteStr k ++ ": " ++ dumpsValue indent lv v) :: dumpsEntries indent lv fs

end

/-- `json.dumps` of a top-level dict. -/
def json_dumps (indent : Option Nat) (d : Record) : String :=
  dumpsValue indent 0 (Value.vDict d)

/-! ### The two stores and the per-invocation oracle -/

/-- One archived object: key, body and the two metadata entries. -/
structure S3Object where
  key : String
  body : String
  metaStationId : String
  metaIngestionTime : String

/-- The state of the two external stores. -/
structure World where
  dynamo : List (String × Record)
  s3 : List S3Object

/-- Per-invocation oracle: whether each store call fails, the wall-clock
readings taken during the invocation, and the uuid drawn by the archival
write (`uuid.uuid4().hex`, 32 hex characters). -/
structure Env where
  dbFails : Bool
  s3Fails : Bool
  processedAt : String
  ingestionTime : String
  responseTime : String
  uuidHex : String

/-- `table.put_item`: creates or wholly replaces the row whose partition
key equals the station id of the item (upsert). -/
def dynamoPut (store : List (String × Record)) (sid : String) (item : Record) :
    List (String × Record) :=
  (sid, item) :: store.filter fun kv => kv.1 ≠ sid

/-- `store_in_dynamodb`: normalize floats to Decimal, stamp
`lambda_processed_at`, put the item.  Any exception from the store call
(including an item without a usable string partition key) is caught and
reported as `false`, leaving both stores untouched. -/
def store_in_dynamodb (env : Env) (w : World) (data : Record) : World × Bool :=
  let data_to_store :=
    setKey (convert_floats_to_decimal data) "lambda_processed_at" (Value.vStr env.processedAt)
  match getKey data_to_store "station_id" with
  | some (Value.vStr sid) =>
      if env.dbFails then (w, false)
      else ({ w with dynamo := dynamoPut w.dynamo sid data_to_store }, true)
  | _ => (w, false)

/-- `str(v)` as performed by f-string interpolation; on every path the
handler exercises, the interpolated value is a string.  The container
renderings are placeholders for unreachable cases. -/
def pyStr : Value → String
  | Value.vStr s => s
  | Value.vInt n => toString n
  | Value.vBool b => if b then "True" else "False"
  | Value.vNone => "None"
  | Value.vFloat q => decimalString q
  | Value.vDec q => decimalString q
  | Value.vList _ => "[...]"
  | Value.vDict _ => "\x7b...\x7d"

/-- Python string slicing `s[:n]`. -/
def strTake (s : String) (n : Nat) : String := String.mk (s.data.take n)

/-- The archival object key built by `archive_to_s3`:
`telemetry/year=Y/month=MM/day=DD/sid_YYYYMMDD_HHMMSS_uuid8.json`, every
date and time component taken from the parsed record timestamp, month and
day zero-padded to two digits, `strftime` fields zero-padded as usual. -/
def archiveKey (ts : PyDateTime) (sid uuid8 : String) : String :=
  "telemetry/year=" ++ toString ts.year ++
  "/month=" ++ padNum 2 ts.month ++
  "/day=" ++ padNum 2 ts.day ++
  "/" ++ sid ++ "_" ++
  padNum 4 ts.year ++ padNum 2 ts.month ++ padNum 2 ts.day ++ "_" ++
  padNum 2 ts.hour ++ padNum 2 ts.minute ++ padNum 2 ts.second ++ "_" ++
  uuid8 ++ ".json"

/-- `archive_to_s3`: parse the timestamp of the record itself, build the
partitioned key with an eight-character random suffix, serialize the full
original record (`indent=2`), put the object with station id and
ingestion wall-clock time as metadata.  Every exception inside the try
block (parse failure, missing key, store failure) is caught and reported
as `false`, leaving both stores untouched. -/
def archive_to_s3 (env : Env) (w : World) (data : Record) : World × Bool :=
  match parseRecordTimestamp data with
  | Except.error _ => (w, false)
  | Except.ok ts =>
    match pySubscript data "station_id" with
    | Except.error _ => (w, false)
    | Except.ok sidv =>
        let s3_key := archiveKey ts (pyStr sidv) (strTake env.uuidHex 8)
        let json_data := json_dumps (some 2) data
        if env.s3Fails then (w, false)
        else ({ w with s3 := w.s3 ++ [⟨s3_key, json_data, pyStr sidv, env.ingestionTime⟩] }, true)

/-- A handler response: status code plus the already-serialized JSON body. -/
structure HandlerResponse where
  statusCode : Nat
  body : String
deriving DecidableEq

namespace Telemetry

/-- `lambda_handler` of `lambda_telemetry_handler.py`: validate, then
attempt the fast-store write, then (independently) the archival write,
then map the pair of outcomes to 200/207/500; a validation rejection
returns 400 before any write. -/
def lambda_handler (env : Env) (w : World) (event : Record) : HandlerResponse × World :=
  match validate_telemetry event with
  | (false, msg) =>
      ({ statusCode := 400,
         body := json_dumps none
           [("error", Value.vStr "Validation failed"),
            ("message", match msg with | some m => Value.vStr m | none => Value.vNone)] }, w)
  | (true, _) =>
      let station_id := (getKey event "station_id").getD Value.vNone
      let sd := store_in_dynamodb env w event
      let sa := archive_to_s3 env sd.1 event
      let dynamodb_success := sd.2
      let s3_success := sa.2
      let status_code :=
        if dynamodb_success && s3_success then 200
        else if dynamodb_success || s3_success then 207
        else 500
      let message :=
        if dynamodb_success && s3_success then "Telemetry processed successfully"
        else if dynamodb_success || s3_success then "Telemetry partially processed"
        else "Failed to process telemetry"
      ({ statusCode := status_code,
         body := json_dumps none
           [("message", Value.vStr message),
            ("station_id", station_id),
            ("dynamodb_success", Value.vBool dynamodb_success),
            ("s3_success", Value.vBool s3_success),
            ("timestamp", Value.vStr env.responseTime)] }, sa.1)

end Telemetry

/-! ### `lambda_api_handler.py` -/

namespace Api

/-- An API Gateway response triple. -/
structure ApiResponse where
  statusCode : Nat
  headers : List (String × String)
  body : String
deriving DecidableEq

/-- The CORS headers attached to every response. -/
def default_headers : List (String × String) :=
  [("Content-Type", "application/json"),
   ("Access-Control-Allow-Origin", "*"),
   ("Access-Control-Allow-Methods", "GET, OPTIONS"),
   ("Access-Control-Allow-Headers", "Content-Type")]

/-- `create_response`: every call site in the source passes no extra
headers, so the headers are always exactly the defaults; the body dict is
serialized with `json.dumps(body, default=str)`. -/
def create_response (status_code : Nat) (body : Record) : ApiResponse :=
  { statusCode := status_code, headers := default_headers, body := json_dumps none body }

mutual

/-- `decimal_to_float`: Decimals with integral value become ints, other
Decimals become floats; dicts and lists are converted recursively. -/
def decimal_to_float : Value → Value
  | Value.vDec q => if q.den = 1 then Value.vInt q.num else Value.vFloat q
  | Value.vDict fs => Value.vDict (decimalFieldsToFloat fs)
  | Value.vList xs => Value.vList (decimalItemsToFloat xs)
  | v => v

def decimalFieldsToFloat : List (String × Value) → List (String × Value)
  | [] => []
  | (k, v) :: fs => (k, decimal_to_float v) :: decimalFieldsToFloat fs

def decimalItemsToFloat : List Value → List Value
  | [] => []
  | x :: xs => decimal_to_float x :: decimalItemsToFloat xs

end

/-- The read-side oracle: whether the DynamoDB calls of this invocation
raise. -/
structure ApiEnv where
  readFails : Bool

/-- Row lookup by partition key. -/
def lookupRow : List (String × Record) → String → Option Record
  | [], _ => none
  | (k, item) :: rest, sid => if k = sid then some item else lookupRow rest sid

/-- `get_station_by_id`: `table.get_item` by partition key.  An absent row
yields `None` (a valid outcome, not an exception); a store failure or a
key of the wrong type raises, and the function re-raises. -/
def get_station_by_id (env : ApiEnv) (store : List (String × Record)) (station_id : Value) :
    Except PyErr (Option Record) :=
  if env.readFails then Except.error PyErr.clientError
  else
    match station_id with
    | Value.vStr sid =>
        match lookupRow store sid with
        | none => Except.ok none
        | some item => Except.ok (some (decimalFieldsToFloat item))
    | _ => Except.error PyErr.clientError

/-- `get_all_stations`: a full table scan, transparently following
pagination, every row converted by `decimal_to_float`; a store failure
re-raises. -/
def get_all_stations (env : ApiEnv) (store : List (String × Record)) :
    Except PyErr (List Record) :=
  if env.readFails then Except.error PyErr.clientError
  else Except.ok (store.map fun kv => decimalFieldsToFloat kv.2)

/-- Python truthiness of the extracted `station_id` value
(`if not station_id`). -/
def isFalsy : Option Value → Bool
  | none => true
  | some Value.vNone => true
  | some (Value.vStr s) => s.isEmpty
  | some (Value.vInt n) => n = 0
  | some (Value.vFloat q) => q = 0
  | some (Value.vBool b) => !b
  | some (Value.vDec q) => q = 0
  | some (Value.vList xs) => xs.isEmpty
  | some (Value.vDict fs) => fs.isEmpty

/-- `handle_get_stations`. -/
def handle_get_stations (env : ApiEnv) (store : List (String × Record)) (_event : Record) :
    ApiResponse :=
  match get_all_stations env store with
  | Except.error _ =>
      create_response 500
        [("error", Value.vStr "Internal server error"),
         ("message", Value.vStr "Failed to retrieve stations")]
  | Except.ok stations =>
      create_response 200
        [("count", Value.vInt stations.length),
         ("stations", Value.vList (stations.map Value.vDict))]

/-- `handle_get_station_by_id`: extract the path parameter, 400 when it is
falsy, 404 when the lookup finds no row, 200 with the row otherwise; any
exception inside the try block (a store failure, a params value that is
not a dict, a key value the store client rejects) becomes a 500. -/
def handle_get_station_by_id (env : ApiEnv) (store : List (String × Record)) (event : Record) :
    ApiResponse :=
  let err500 := create_response 500
    [("error", Value.vStr "Internal server error"),
     ("message", Value.vStr "Failed to retrieve station")]
  match (getKey event "pathParameters").getD (Value.vDict []) with
  | Value.vDict path_params =>
      let station_id := getKey path_params "station_id"
      if isFalsy station_id then
        create_response 400
          [("error", Value.vStr "Bad request"),
           ("message", Value.vStr "station_id is required")]
      else
        let sidv := station_id.getD Value.vNone
        match get_station_by_id env store sidv with
        | Except.error _ => err500
        | Except.ok none =>
            create_response 404
              [("error", Value.vStr "Not found"),
               ("message", Value.vStr ("Station " ++ pyStr sidv ++ " not found"))]
        | Except.ok (some station) =>
            create_response 200 [("station", Value.vDict station)]
  | _ => err500

/-- `handle_options`. -/
def handle_options (_event : Record) : ApiResponse :=
  create_response 200 [("message", Value.vStr "CORS preflight response")]

/-- `s.startswith(p)`. -/
def pyStartsWith (s p : String) : Bool := p.data.isPrefixOf s.data

/-- `event.get(key, "")` rendered as the string the route comparisons and
messages use. -/
def pyGetStr (d : Record) (k : String) : String :=
  match getKey d k with
  | some v => pyStr v
  | none => ""

/-- `lambda_handler` of `lambda_api_handler.py`: route on method and
path. -/
def lambda_handler (env : ApiEnv) (store : List (String × Record)) (event : Record) :
    ApiResponse :=
  let http_method := pyGetStr event "httpMethod"
  let path := pyGetStr event "path"
  if http_method = "OPTIONS" then handle_options event
  else if http_method = "GET" then
    if path = "/stations" then handle_get_stations env store event
    else if pyStartsWith path "/stations/" then handle_get_station_by_id env store event
    else
      create_response 404
        [("error", Value.vStr "Not found"),
         ("message", Value.vStr ("Path " ++ path ++ " not found"))]
  else
    create_response 405
      [("error", Value.vStr "Method not allowed"),
       ("message", Value.vStr ("Method " ++ http_method ++ " not supported"))]

end Api

/-! ### `station_simulator.py` -/

namespace Sim

/-- The mutable state of one `BatterySwapStation`. -/
structure Station where
  station_id : String
  battery_available : Int
  battery_charging : Int
  temperature : ℚ
  humidity : ℚ
  status : String
  total_swaps_today : Int
  last_swap_time : String
deriving DecidableEq

/-- The random draws and the wall clock of one call to `update()`:
`chargeRand`, `swapRand`, `statusRand` model `random.random()` (in
`[0,1)`), `tempDelta` models `random.uniform(-0.5, 0.5)`, `humidityDelta`
models `random.uniform(-2.0, 2.0)`. -/
structure TickOracle where
  chargeRand : ℚ
  swapRand : ℚ
  tempDelta : ℚ
  humidityDelta : ℚ
  statusRand : ℚ
  now : String
deriving DecidableEq

/-- `__init__`: the caller-independent part of construction; the random
initial draws are oracle arguments whose documented ranges are
`battery_available ∈ [8,15]`, `battery_charging ∈ [2,6]`,
`temperature ∈ [20,30]`, `humidity ∈ [30,60]`,
`total_swaps_today ∈ [0,50]`. -/
def init (station_id : String) (availInit chargingInit : Int) (tempInit humInit : ℚ)
    (swapsInit : Int) (now : String) : Station :=
  { station_id := station_id
    battery_available := availInit
    battery_charging := chargingInit
    temperature := tempInit
    humidity := humInit
    status := "operational"
    total_swaps_today := swapsInit
    last_swap_time := now }

/-- `simulate_battery_charging`: with probability 0.2, move one battery
from charging to available, only when one is charging. -/
def simulate_battery_charging (s : Station) (t : TickOracle) : Station :=
  if s.battery_charging > 0 ∧ t.chargeRand < 1/5 then
    { s with battery_charging := s.battery_charging - 1,
             battery_available := s.battery_available + 1 }
  else s

/-- `simulate_battery_swap`: with probability 0.15, move one battery from
available to charging, bump the swap counter and the swap timestamp, only
when one is available. -/
def simulate_battery_swap (s : Station) (t : TickOracle) : Station :=
  if s.battery_available > 0 ∧ t.swapRand < 3/20 then
    { s with battery_available := s.battery_available - 1,
             battery_charging := s.battery_charging + 1,
             total_swaps_today := s.total_swaps_today + 1,
             last_swap_time := t.now }
  else s

/-- `simulate_temperature_change`: random walk clamped to [15, 35]. -/
def simulate_temperature_change (s : Station) (t : TickOracle) : Station :=
  { s with temperature := max 15 (min 35 (s.temperature + t.tempDelta)) }

/-- `simulate_humidity_change`: random walk clamped to [20, 80]. -/
def simulate_humidity_change (s : Station) (t : TickOracle) : Station :=
  { s with humidity := max 20 (min 80 (s.humidity + t.humidityDelta)) }

/-- `simulate_status_change`: operational to maintenance with probability
0.01, maintenance back to operational with probability 0.10. -/
def simulate_status_change (s : Station) (t : TickOracle) : Station :=
  if s.status = "operational" ∧ t.statusRand < 1/100 then
    { s with status := "maintenance" }
  else if s.status = "maintenance" ∧ t.statusRand < 1/10 then
    { s with status := "operational" }
  else s

/-- `update()`: the five simulation rules in their fixed order. -/
def update (s : Station) (t : TickOracle) : Station :=
  simulate_status_change
    (simulate_humidity_change
      (simulate_temperature_change
        (simulate_battery_swap
          (simulate_battery_charging s t) t) t) t) t

/-- Any number of ticks, each with its own oracle. -/
def runTicks (s : Station) (ticks : List TickOracle) : Station :=
  ticks.foldl update s

/-- The safety invariant of one station: non-negative battery pools,
temperature within [15, 35], humidity within [20, 80]. -/
def StationInv (s : Station) : Prop :=
  0 ≤ s.battery_available ∧ 0 ≤ s.battery_charging ∧
  15 ≤ s.temperature ∧ s.temperature ≤ 35 ∧
  20 ≤ s.humidity ∧ s.humidity ≤ 80

theorem charging_inv (s : Station) (t : TickOracle) (h : StationInv s) :
    StationInv (simulate_battery_charging s t) := by
  obtain ⟨h1, h2, h3, h4, h5, h6⟩ := h
  unfold simulate_battery_charging
  split_ifs with hc
  · obtain ⟨hpos, -⟩ := hc
    exact ⟨show (0:ℤ) ≤ s.battery_available + 1 by omega,
      show (0:ℤ) ≤ s.battery_charging - 1 by omega, h3, h4, h5, h6⟩
  · exact ⟨h1, h2, h3, h4, h5, h6⟩

theorem swap_inv (s : Station) (t : TickOracle) (h : StationInv s) :
    StationInv (simulate_battery_swap s t) := by
  obtain ⟨h1, h2, h3, h4, h5, h6⟩ := h
  unfold simulate_battery_swap
  split_ifs with hc
  · obtain ⟨hpos, -⟩ := hc
    exact ⟨show (0:ℤ) ≤ s.battery_available - 1 by omega,
      show (0:ℤ) ≤ s.battery_charging + 1 by omega, h3, h4, h5, h6⟩
  · exact ⟨h1, h2, h3, h4, h5, h6⟩

theorem temperature_inv (s : Station) (t : TickOracle) (h : StationInv s) :
    StationInv (simulate_temperature_change s t) := by
  obtain ⟨h1, h2, _, _, h5, h6⟩ := h
  exact ⟨h1, h2, le_max_left _ _, max_le (by norm_num) (min_le_left _ _), h5, h6⟩

theorem humidity_inv (s : Station) (t : TickOracle) (h : StationInv s) :
    StationInv (simulate_humidity_change s t) := by
  obtain ⟨h1, h2, h3, h4, _, _⟩ := h
  exact ⟨h1, h2, h3, h4, le_max_left _ _, max_le (by norm_num) (min_le_left _ _)⟩

theorem status_inv (s : Station) (t : TickOracle) (h : StationInv s) :
    StationInv (simulate_status_change s t) := by
  obtain ⟨h1, h2, h3, h4, h5, h6⟩ := h
  unfold simulate_status_change
  split_ifs <;> exact ⟨h1, h2, h3, h4, h5, h6⟩

theorem update_inv (s : Station) (t : TickOracle) (h : StationInv s) :
    StationInv (update s t) :=
  status_inv _ _ (humidity_inv _ _ (temperature_inv _ _ (swap_inv _ _ (charging_inv _ _ h))))

theorem runTicks_inv (ticks : List TickOracle) (s : Station) (h : StationInv s) :
    StationInv (runTicks s ticks) := by
  induction ticks generalizing s with
  | nil => exact h
  | cons t ts ih => exact ih (update s t) (update_inv s t h)

theorem charging_sum (s : Station) (t : TickOracle) :
    (simulate_battery_charging s t).battery_available +
      (simulate_battery_charging s t).battery_charging =
      s.battery_available + s.battery_charging := by
  unfold simulate_battery_charging
  split_ifs
  · show s.battery_available + 1 + (s.battery_charging - 1) =
      s.battery_available + s.battery_charging
    omega
  · rfl

theorem swap_sum (s : Station) (t : TickOracle) :
    (simulate_battery_swap s t).battery_available +
      (simulate_battery_swap s t).battery_charging =
      s.battery_available + s.battery_charging := by
  unfold simulate_battery_swap
  split_ifs
  · show s.battery_available - 1 + (s.battery_charging + 1) =
      s.battery_available + s.battery_charging
    omega
  · rfl

theorem temperature_sum (s : Station) (t : TickOracle) :
    (simulate_temperature_change s t).battery_available +
      (simulate_temperature_change s t).battery_charging =
      s.battery_available + s.battery_charging := rfl

theorem humidity_sum (s : Station) (t : TickOracle) :
    (simulate_humidity_change s t).battery_available +
      (simulate_humidity_change s t).battery_charging =
      s.battery_available + s.battery_charging := rfl

theorem status_sum (s : Station) (t : TickOracle) :
    (simulate_status_change s t).battery_available +
      (simulate_status_change s t).battery_charging =
      s.battery_available + s.battery_charging := by
  unfold simulate_status_change
  split_ifs <;> rfl

theorem update_sum (s : Station) (t : TickOracle) :
    (update s t).battery_available + (update s t).battery_charging =
      s.battery_available + s.battery_charging := by
  unfold update
  rw [status_sum, humidity_sum, temperature_sum, swap_sum, charging_sum]

theorem runTicks_sum (ticks : List TickOracle) (s : Station) :
    (runTicks s ticks).battery_available + (runTicks s ticks).battery_charging =
      s.battery_available + s.battery_charging := by
  induction ticks generalizing s with
  | nil => rfl
  | cons t ts ih =>
      have h1 : runTicks s (t :: ts) = runTicks (update s t) ts := rfl
      rw [h1, ih (update s t), update_sum]

end Sim

/-! ## Claim theorems about the simulator -/

/-- C4: for every station simulator and every number of ticks after
construction (the construction draws lying in their documented ranges),
the available-battery and charging-battery counts are non-negative, the
temperature lies within [15, 35] and the humidity lies within [20, 80]. -/
theorem C4_simulator_invariants (sid now : String) (a c sw : Int) (temp hum : ℚ)
    (ticks : List Sim.TickOracle)
    (ha : 8 ≤ a) (ha' : a ≤ 15) (hc : 2 ≤ c) (hc' : c ≤ 6)
    (ht : 20 ≤ temp) (ht' : temp ≤ 30) (hh : 30 ≤ hum) (hh' : hum ≤ 60) :
    0 ≤ (Sim.runTicks (Sim.init sid a c temp hum sw now) ticks).battery_available ∧
    0 ≤ (Sim.runTicks (Sim.init sid a c temp hum sw now) ticks).battery_charging ∧
    15 ≤ (Sim.runTicks (Sim.init sid a c temp hum sw now) ticks).temperature ∧
    (Sim.runTicks (Sim.init sid a c temp hum sw now) ticks).temperature ≤ 35 ∧
    20 ≤ (Sim.runTicks (Sim.init sid a c temp hum sw now) ticks).humidity ∧
    (Sim.runTicks (Sim.init sid a c temp hum sw now) ticks).humidity ≤ 80 := by
  refine Sim.runTicks_inv ticks _ ?_
  exact ⟨show (0:ℤ) ≤ a by omega, show (0:ℤ) ≤ c by omega,
    show (15:ℚ) ≤ temp by linarith, show temp ≤ (35:ℚ) by linarith,
    show (20:ℚ) ≤ hum by linarith, show hum ≤ (80:ℚ) by linarith⟩

/-- Witness for C4 at a concrete initial state and a concrete two-tick
run. -/
theorem C4_simulator_invariants_witness :
    0 ≤ (Sim.runTicks (Sim.init "station-01" 10 3 25 40 7 "t0")
          [⟨0, 0, (1:ℚ)/4, -1, 1, "t1"⟩, ⟨1, 1, 0, 0, 0, "t2"⟩]).battery_available ∧
    0 ≤ (Sim.runTicks (Sim.init "station-01" 10 3 25 40 7 "t0")
          [⟨0, 0, (1:ℚ)/4, -1, 1, "t1"⟩, ⟨1, 1, 0, 0, 0, "t2"⟩]).battery_charging ∧
    15 ≤ (Sim.runTicks (Sim.init "station-01" 10 3 25 40 7 "t0")
          [⟨0, 0, (1:ℚ)/4, -1, 1, "t1"⟩, ⟨1, 1, 0, 0, 0, "t2"⟩]).temperature ∧
    (Sim.runTicks (Sim.init "station-01" 10 3 25 40 7 "t0")
          [⟨0, 0, (1:ℚ)/4, -1, 1, "t1"⟩, ⟨1, 1, 0, 0, 0, "t2"⟩]).temperature ≤ 35 ∧
    20 ≤ (Sim.runTicks (Sim.init "station-01" 10 3 25 40 7 "t0")
          [⟨0, 0, (1:ℚ)/4, -1, 1, "t1"⟩, ⟨1, 1, 0, 0, 0, "t2"⟩]).humidity ∧
    (Sim.runTicks (Sim.init "station-01" 10 3 25 40 7 "t0")
          [⟨0, 0, (1:ℚ)/4, -1, 1, "t1"⟩, ⟨1, 1, 0, 0, 0, "t2"⟩]).humidity ≤ 80 :=
  C4_simulator_invariants "station-01" "t0" 10 3 7 25 40 _
    (by decide) (by decide) (by decide) (by decide)
    (by decide) (by decide) (by decide) (by decide)

/-! ## Claim theorems about the validator -/

theorem checkRequired_none_hasKey (d : Record) (h : checkRequired d = none) :
    hasKey d "station_id" = true ∧ hasKey d "battery_available" = true ∧
      hasKey d "timestamp" = true := by
  unfold checkRequired required_fields at h
  by_cases h1 : hasKey d "station_id" <;>
    by_cases h2 : hasKey d "battery_available" <;>
    by_cases h3 : hasKey d "timestamp" <;>
    simp_all [List.findSome?]

theorem parseRecordTimestamp_error_kind (d : Record) (e : PyErr)
    (hk : hasKey d "timestamp" = true) (h : parseRecordTimestamp d = Except.error e) :
    e = PyErr.valueError ∨ e = PyErr.attributeError := by
  unfold parseRecordTimestamp at h
  cases hg : getKey d "timestamp" with
  | none => simp [hasKey, hg] at hk
  | some v =>
    cases v <;>
      (simp_all [pySubscript, pyReplaceZ, fromisoformat, Except.bind, bind]
       try exact Or.inr rfl)
    rename_i s
    cases hp : parseIso (replaceZ s).data <;> simp_all

/-- When a record reaches the timestamp check with a non-string timestamp
value, the check raises AttributeError, which the handler catches and
converts into the invalid-timestamp rejection. -/
theorem parseRecordTimestamp_nonstring (d : Record) (v : Value)
    (hv : getKey d "timestamp" = some v) (hns : isStrValue v = false) :
    parseRecordTimestamp d = Except.error PyErr.attributeError := by
  unfold parseRecordTimestamp
  cases v <;> simp_all [pySubscript, pyReplaceZ, isStrValue, Except.bind, bind]

/-- C8 counterexample: a record whose battery_available is present and
negative, but whose station id is not a string, is rejected with the
station-id reason, not the battery reason: the station-id check runs
first and short-circuits. -/
theorem C8_counterexample :
    validate_telemetry
        [("station_id", Value.vInt 5), ("battery_available", Value.vInt (-1)),
         ("timestamp", Value.vStr "2024-01-15T14:23:45Z")] =
      (false, some msgStationId) ∧ msgStationId ≠ msgBattery :=
  ⟨by decide, by decide⟩

/-- C8 amended: for every record that passes the earlier checks (all
required fields present and a valid station id) and whose
battery_available is non-numeric or negative, the validator rejects with
the battery reason; and any record the validator accepts has a numeric,
non-negative battery_available. -/
theorem C8_battery_check :
    (∀ d : Record, checkRequired d = none →
      isValidStationId ((getKey d "station_id").getD Value.vNone) = true →
      (isNumeric ((getKey d "battery_available").getD Value.vNone) = false ∨
        numValue ((getKey d "battery_available").getD Value.vNone) < 0) →
      validate_telemetry d = (false, some msgBattery)) ∧
    (∀ d : Record, (validate_telemetry d).1 = true →
      isNumeric ((getKey d "battery_available").getD Value.vNone) = true ∧
      0 ≤ numValue ((getKey d "battery_available").getD Value.vNone)) := by
  constructor
  · intro d hreq hsid hbat
    unfold validate_telemetry
    rw [hreq]
    have hsid' : ¬ ((!isValidStationId ((getKey d "station_id").getD Value.vNone)) = true) := by
      simp [hsid]
    rw [if_neg hsid']
    have hcond : (!(isNumeric ((getKey d "battery_available").getD Value.vNone))
        || decide (numValue ((getKey d "battery_available").getD Value.vNone) < 0)) = true := by
      rcases hbat with hn | hlt
      · simp [hn]
      · simp [decide_eq_true hlt]
    rw [if_pos hcond]
  · intro d htrue
    unfold validate_telemetry at htrue
    cases hcr : checkRequired d with
    | some m => rw [hcr] at htrue; simp at htrue
    | none =>
      rw [hcr] at htrue
      by_cases hsid : isValidStationId ((getKey d "station_id").getD Value.vNone)
      · simp only [hsid, Bool.not_true, Bool.false_eq_true, if_false] at htrue
        by_cases hn : isNumeric ((getKey d "battery_available").getD Value.vNone)
        · refine ⟨hn, ?_⟩
          by_cases hlt : numValue ((getKey d "battery_available").getD Value.vNone) < 0
          · have hd : decide (numValue ((getKey d "battery_available").getD Value.vNone) < 0) =
                true := decide_eq_true hlt
            simp [hd] at htrue
          · linarith [not_lt.mp hlt]
        · simp [hn] at htrue
      · simp [hsid] at htrue

/-- Witness for the C8 amended theorem at a concrete record with a valid
station id and a negative battery count, and at the accepted record of
the specification scenario. -/
theorem C8_battery_check_witness :
    validate_telemetry
        [("station_id", Value.vStr "station-01"), ("battery_available", Value.vInt (-1)),
         ("timestamp", Value.vStr "2024-01-15T14:23:45Z")] =
      (false, some msgBattery) ∧
    (isNumeric ((getKey
        [("station_id", Value.vStr "station-01"), ("battery_available", Value.vInt 12),
         ("timestamp", Value.vStr "2024-01-15T14:23:45Z")] "battery_available").getD
          Value.vNone) = true ∧
      0 ≤ numValue ((getKey
        [("station_id", Value.vStr "station-01"), ("battery_available", Value.vInt 12),
         ("timestamp", Value.vStr "2024-01-15T14:23:45Z")] "battery_available").getD
          Value.vNone)) :=
  ⟨C8_battery_check.1
      [("station_id", Value.vStr "station-01"), ("battery_available", Value.vInt (-1)),
       ("timestamp", Value.vStr "2024-01-15T14:23:45Z")]
      (by decide) (by decide) (Or.inr (by decide)),
    C8_battery_check.2
      [("station_id", Value.vStr "station-01"), ("battery_available", Value.vInt 12),
       ("timestamp", Value.vStr "2024-01-15T14:23:45Z")]
      (by decide)⟩

/-- C10: validate_telemetry is total: in the exception-monad rendering it
always returns the same verdict pair as the pure rendering and never lets
an exception escape, whatever the shape of the input dictionary; in
particular a record that reaches the timestamp check with a non-string
timestamp value is rejected with the invalid-timestamp reason rather than
crashing the validator. -/
theorem C10_validator_total :
    (∀ d : Record, validateE d = Except.ok (validate_telemetry d)) ∧
    (∀ d : Record, ∀ v : Value, checkRequired d = none →
      isValidStationId ((getKey d "station_id").getD Value.vNone) = true →
      isNumeric ((getKey d "battery_available").getD Value.vNone) = true →
      ¬ numValue ((getKey d "battery_available").getD Value.vNone) < 0 →
      getKey d "timestamp" = some v →
      isStrValue v = false →
      validate_telemetry d = (false, some msgTimestamp)) := by
  constructor
  · intro d
    unfold validateE validate_telemetry
    cases hcr : checkRequired d with
    | some m => rfl
    | none =>
      by_cases hsid : isValidStationId ((getKey d "station_id").getD Value.vNone)
      · have hsid' : ¬ ((!isValidStationId ((getKey d "station_id").getD Value.vNone)) = true) := by
          simp [hsid]
        rw [if_neg hsid', if_neg hsid']
        by_cases hbat : (!(isNumeric ((getKey d "battery_available").getD Value.vNone))
            || decide (numValue ((getKey d "battery_available").getD Value.vNone) < 0)) = true
        · rw [if_pos hbat, if_pos hbat]
        · rw [if_neg hbat, if_neg hbat]
          cases hp : parseRecordTimestamp d with
          | ok ts => rfl
          | error e =>
            have hk := (checkRequired_none_hasKey d hcr).2.2
            rcases parseRecordTimestamp_error_kind d e hk hp with he | he <;>
              simp [he]
      · have hsid' : ((!isValidStationId ((getKey d "station_id").getD Value.vNone)) = true) := by
          simp [hsid]
        rw [if_pos hsid', if_pos hsid']
  · intro d v hreq hsid hn hnlt hv hns
    unfold validate_telemetry
    rw [hreq]
    have hd : decide (numValue ((getKey d "battery_available").getD Value.vNone) < 0) =
        false := decide_eq_false hnlt
    rw [parseRecordTimestamp_nonstring d v hv hns]
    simp [hsid, hn, hd]

/-- Witness for C10 at a record whose timestamp is the integer 7: the
exception-monad run returns normally and the verdict is the
invalid-timestamp rejection. -/
theorem C10_validator_total_witness :
    validateE
        [("station_id", Value.vStr "station-01"), ("battery_available", Value.vInt 12),
         ("timestamp", Value.vInt 7)] =
      Except.ok (validate_telemetry
        [("station_id", Value.vStr "station-01"), ("battery_available", Value.vInt 12),
         ("timestamp", Value.vInt 7)]) ∧
    validate_telemetry
        [("station_id", Value.vStr "station-01"), ("battery_available", Value.vInt 12),
         ("timestamp", Value.vInt 7)] =
      (false, some msgTimestamp) :=
  ⟨C10_validator_total.1
      [("station_id", Value.vStr "station-01"), ("battery_available", Value.vInt 12),
       ("timestamp", Value.vInt 7)],
    C10_validator_total.2
      [("station_id", Value.vStr "station-01"), ("battery_available", Value.vInt 12),
       ("timestamp", Value.vInt 7)]
      (Value.vInt 7) (by decide) (by decide) (by decide) (by decide) rfl rfl⟩

/-- C9: one call to update preserves the sum of the available and charging
battery pools, and hence the sum is invariant across any number of
ticks. -/
theorem C9_battery_sum_preserved (s : Sim.Station) (t : Sim.TickOracle)
    (ticks : List Sim.TickOracle) :
    (Sim.update s t).battery_available + (Sim.update s t).battery_charging =
      s.battery_available + s.battery_charging ∧
    (Sim.runTicks s ticks).battery_available + (Sim.runTicks s ticks).battery_charging =
      s.battery_available + s.battery_charging :=
  ⟨Sim.update_sum s t, Sim.runTicks_sum ticks s⟩

/-! ## Helper lemmas about the ingestion pipeline -/

/-- A record that validates as a whole has a string station id and a
parseable timestamp. -/
theorem validate_true_facts (d : Record) (h : validate_telemetry d = (true, none)) :
    (∃ s, getKey d "station_id" = some (Value.vStr s)) ∧
    (∃ ts, parseRecordTimestamp d = Except.ok ts) := by
  unfold validate_telemetry at h
  cases hcr : checkRequired d with
  | some m => rw [hcr] at h; exact absurd h (by simp)
  | none =>
    rw [hcr] at h
    by_cases hsid : (!isValidStationId ((getKey d "station_id").getD Value.vNone)) = true
    · rw [if_pos hsid] at h; exact absurd h (by simp)
    · rw [if_neg hsid] at h
      have hsid2 : isValidStationId ((getKey d "station_id").getD Value.vNone) = true := by
        simpa using hsid
      constructor
      · cases hg : getKey d "station_id" with
        | none => simp [hg, isValidStationId] at hsid2
        | some v =>
          cases v <;> rw [hg] at hsid2 <;>
            first
              | exact ⟨_, rfl⟩
              | simp [isValidStationId] at hsid2
      · split_ifs at h
        · exact absurd h (by simp)
        · cases hp : parseRecordTimestamp d with
          | ok ts => exact ⟨ts, rfl⟩
          | error e => rw [hp] at h; exact absurd h (by simp)

theorem getKey_convert_vStr (d : Record) (k s : String)
    (h : getKey d k = some (Value.vStr s)) :
    getKey (convert_floats_to_decimal d) k = some (Value.vStr s) := by
  induction d with
  | nil => simp [getKey] at h
  | cons kv rest ih =>
    obtain ⟨k', v⟩ := kv
    cases v <;> simp only [convert_floats_to_decimal, getKey] at h ⊢ <;>
      by_cases hk : k' = k <;> simp_all

theorem getKey_mapSet_ne (d : Record) (k k' : String) (v : Value) (hne : k' ≠ k) :
    getKey (d.map fun kv => if kv.1 = k then (k, v) else kv) k' = getKey d k' := by
  induction d with
  | nil => rfl
  | cons kv rest ih =>
    obtain ⟨a, b⟩ := kv
    rw [List.map_cons]
    by_cases hak : a = k
    · subst hak
      have hf : (if (a, b).1 = a then (a, v) else (a, b)) = (a, v) := by simp
      rw [hf]
      simp only [getKey]
      rw [if_neg (Ne.symm hne), if_neg (Ne.symm hne)]
      exact ih
    · have hf : (if (a, b).1 = k then (k, v) else (a, b)) = (a, b) := by simp [hak]
      rw [hf]
      simp only [getKey]
      by_cases hak' : a = k'
      · rw [if_pos hak', if_pos hak']
      · rw [if_neg hak', if_neg hak']
        exact ih

theorem getKey_append_ne (d : Record) (k k' : String) (v : Value) (hne : k' ≠ k) :
    getKey (d ++ [(k, v)]) k' = getKey d k' := by
  induction d with
  | nil => simp [getKey, Ne.symm hne]
  | cons kv rest ih =>
    obtain ⟨a, b⟩ := kv
    simp [getKey, ih]

theorem getKey_setKey_ne (d : Record) (k k' : String) (v : Value) (hne : k' ≠ k) :
    getKey (setKey d k v) k' = getKey d k' := by
  unfold setKey
  split
  · exact getKey_mapSet_ne d k k' v hne
  · exact getKey_append_ne d k k' v hne

/-- `store_in_dynamodb` on a record with a string station id: fails and
leaves the world unchanged exactly when the store call fails, otherwise
upserts the normalized, stamped item under the station id. -/
theorem store_on_valid (env : Env) (w : World) (d : Record) (s : String)
    (hs : getKey d "station_id" = some (Value.vStr s)) :
    store_in_dynamodb env w d =
      if env.dbFails then (w, false)
      else ({ w with dynamo := dynamoPut w.dynamo s (setKey (convert_floats_to_decimal d) "lambda_processed_at" (Value.vStr env.processedAt)) }, true) := by
  have h1 : getKey (setKey (convert_floats_to_decimal d) "lambda_processed_at"
      (Value.vStr env.processedAt)) "station_id" = some (Value.vStr s) := by
    rw [getKey_setKey_ne _ _ _ _ (by decide)]
    exact getKey_convert_vStr d _ s hs
  simp only [store_in_dynamodb]
  rw [h1]

/-- `archive_to_s3` on a record with a string station id and a parseable
timestamp: fails and leaves the world unchanged exactly when the store
call fails, otherwise appends one object with the partitioned key and the
serialized original record. -/
theorem archive_on_valid (env : Env) (w : World) (d : Record) (ts : PyDateTime) (s : String)
    (hts : parseRecordTimestamp d = Except.ok ts)
    (hs : getKey d "station_id" = some (Value.vStr s)) :
    archive_to_s3 env w d =
      if env.s3Fails then (w, false)
      else ({ w with s3 := w.s3 ++
          [⟨archiveKey ts s (strTake env.uuidHex 8), json_dumps (some 2) d, s,
            env.ingestionTime⟩] }, true) := by
  unfold archive_to_s3
  rw [hts]
  have h2 : pySubscript d "station_id" = Except.ok (Value.vStr s) := by
    unfold pySubscript; rw [hs]
  rw [h2]
  rfl

theorem filter_ne_then_eq (store : List (String × Record)) (s : String) :
    ((store.filter fun kv => kv.1 ≠ s).filter fun kv => kv.1 = s) = [] := by
  induction store with
  | nil => rfl
  | cons kv rest ih =>
    by_cases hk : kv.1 = s <;> simp [List.filter, hk, ih]

theorem dynamoPut_count (store : List (String × Record)) (s : String) (item : Record) :
    ((dynamoPut store s item).filter fun kv => kv.1 = s).length = 1 := by
  unfold dynamoPut
  simp [List.filter, filter_ne_then_eq store s]

theorem archiveKey_ne (ts : PyDateTime) (s u1 u2 : String) (hne : u1 ≠ u2) :
    archiveKey ts s u1 ≠ archiveKey ts s u2 := by
  unfold archiveKey
  intro hcontra
  apply hne
  have h1 := congrArg String.data hcontra
  simp only [String.data_append, List.append_assoc, List.append_cancel_left_eq] at h1
  have h2 : u1.data = u2.data := List.append_cancel_right h1
  exact congrArg String.mk h2

/-! ## Claim theorems about the ingestion pipeline -/

/-- C2: a record the validator rejects yields a 400 response whose body
carries the rejection reason, and the handler returns with both stores
exactly as they were: no write happens. -/
theorem C2_validation_gate (env : Env) (w : World) (event : Record) (msg : String)
    (h : validate_telemetry event = (false, some msg)) :
    Telemetry.lambda_handler env w event =
      ({ statusCode := 400,
         body := json_dumps none
           [("error", Value.vStr "Validation failed"), ("message", Value.vStr msg)] }, w) := by
  unfold Telemetry.lambda_handler
  rw [h]

/-- Witness for C2: a record missing its station id is answered with 400
and an unchanged world. -/
theorem C2_validation_gate_witness :
    Telemetry.lambda_handler ⟨false, false, "p", "i", "r", "u"⟩
        ⟨[("station-09", [("battery_available", Value.vInt 4)])], []⟩
        [("battery_available", Value.vInt 1)] =
      ({ statusCode := 400,
         body := json_dumps none
           [("error", Value.vStr "Validation failed"),
            ("message", Value.vStr "Missing required field: station_id")] },
       ⟨[("station-09", [("battery_available", Value.vInt 4)])], []⟩) :=
  C2_validation_gate ⟨false, false, "p", "i", "r", "u"⟩
    ⟨[("station-09", [("battery_available", Value.vInt 4)])], []⟩
    [("battery_available", Value.vInt 1)] "Missing required field: station_id" (by decide)

/-- C1: for a validated record the response status is 200 when both
writes succeed, 207 when exactly one succeeds, 500 when neither does;
each store is written at most once per ingest and a failing write leaves
its store unchanged — no retry happens. -/
theorem C1_outcome_threeway (env : Env) (w : World) (event : Record)
    (h : validate_telemetry event = (true, none)) :
    ((Telemetry.lambda_handler env w event).1.statusCode =
      if !env.dbFails && !env.s3Fails then 200
      else if !env.dbFails || !env.s3Fails then 207
      else 500) ∧
    (env.dbFails = true → (Telemetry.lambda_handler env w event).2.dynamo = w.dynamo) ∧
    (env.s3Fails = true → (Telemetry.lambda_handler env w event).2.s3 = w.s3) ∧
    (env.dbFails = false → ∃ sid item,
      (Telemetry.lambda_handler env w event).2.dynamo = dynamoPut w.dynamo sid item) ∧
    (env.s3Fails = false → ∃ o,
      (Telemetry.lambda_handler env w event).2.s3 = w.s3 ++ [o]) := by
  obtain ⟨⟨s, hs⟩, ts, hts⟩ := validate_true_facts event h
  have hst : ∀ w' : World, store_in_dynamodb env w' event =
      if env.dbFails then (w', false)
      else ({ w' with dynamo := dynamoPut w'.dynamo s (setKey (convert_floats_to_decimal event) "lambda_processed_at" (Value.vStr env.processedAt)) }, true) :=
    fun w' => store_on_valid env w' event s hs
  have har : ∀ w' : World, archive_to_s3 env w' event =
      if env.s3Fails then (w', false)
      else ({ w' with s3 := w'.s3 ++
          [⟨archiveKey ts s (strTake env.uuidHex 8), json_dumps (some 2) event, s,
            env.ingestionTime⟩] }, true) :=
    fun w' => archive_on_valid env w' event ts s hts hs
  unfold Telemetry.lambda_handler
  rw [h]
  cases hdb : env.dbFails <;> cases hs3 : env.s3Fails <;>
    simp [hst, har, hdb, hs3]

/-- Witness for C1 at the specification scenario record with a failing
fast store and a working archive. -/
theorem C1_outcome_threeway_witness :
    ((Telemetry.lambda_handler ⟨true, false, "p", "i", "r", "0123456789abcdef0123456789abcdef"⟩
        ⟨[], []⟩
        [("station_id", Value.vStr "station-01"), ("battery_available", Value.vInt 12),
         ("timestamp", Value.vStr "2024-01-15T14:23:45Z")]).1.statusCode =
      if !(true : Bool) && !(false : Bool) then 200
      else if !(true : Bool) || !(false : Bool) then 207
      else 500) ∧
    ((true : Bool) = true →
      (Telemetry.lambda_handler ⟨true, false, "p", "i", "r", "0123456789abcdef0123456789abcdef"⟩
        ⟨[], []⟩
        [("station_id", Value.vStr "station-01"), ("battery_available", Value.vInt 12),
         ("timestamp", Value.vStr "2024-01-15T14:23:45Z")]).2.dynamo = ([] : List (String × Record))) ∧
    ((false : Bool) = true →
      (Telemetry.lambda_handler ⟨true, false, "p", "i", "r", "0123456789abcdef0123456789abcdef"⟩
        ⟨[], []⟩
        [("station_id", Value.vStr "station-01"), ("battery_available", Value.vInt 12),
         ("timestamp", Value.vStr "2024-01-15T14:23:45Z")]).2.s3 = ([] : List S3Object)) ∧
    ((true : Bool) = false → ∃ sid item,
      (Telemetry.lambda_handler ⟨true, false, "p", "i", "r", "0123456789abcdef0123456789abcdef"⟩
        ⟨[], []⟩
        [("station_id", Value.vStr "station-01"), ("battery_available", Value.vInt 12),
         ("timestamp", Value.vStr "2024-01-15T14:23:45Z")]).2.dynamo =
        dynamoPut [] sid item) ∧
    ((false : Bool) = false → ∃ o,
      (Telemetry.lambda_handler ⟨true, false, "p", "i", "r", "0123456789abcdef0123456789abcdef"⟩
        ⟨[], []⟩
        [("station_id", Value.vStr "station-01"), ("battery_available", Value.vInt 12),
         ("timestamp", Value.vStr "2024-01-15T14:23:45Z")]).2.s3 = [] ++ [o]) :=
  C1_outcome_threeway ⟨true, false, "p", "i", "r", "0123456789abcdef0123456789abcdef"⟩
    ⟨[], []⟩
    [("station_id", Value.vStr "station-01"), ("battery_available", Value.vInt 12),
     ("timestamp", Value.vStr "2024-01-15T14:23:45Z")] (by decide)

/-- C3: for a validated record the fast-store failure is absorbed inside
the pipeline — `store_in_dynamodb` reports `false` with the world
untouched instead of raising — the archival write is attempted afterwards
whatever the fast-store outcome (the final archival state never depends
on the fast-store fault), its outcome is recorded as `s3_success` in the
response alongside `dynamodb_success = false`; symmetrically an
archival-write failure is absorbed and recorded. -/
theorem C3_failures_isolated (env : Env) (w : World) (event : Record)
    (h : validate_telemetry event = (true, none)) :
    ((Telemetry.lambda_handler env w event).2.s3 = (archive_to_s3 env w event).1.s3) ∧
    (store_in_dynamodb { env with dbFails := true } w event = (w, false)) ∧
    (archive_to_s3 { env with s3Fails := true } w event = (w, false)) ∧
    (∃ m, (Telemetry.lambda_handler { env with dbFails := true } w event).1.body =
      json_dumps none
        [("message", Value.vStr m),
         ("station_id", (getKey event "station_id").getD Value.vNone),
         ("dynamodb_success", Value.vBool false),
         ("s3_success", Value.vBool (!env.s3Fails)),
         ("timestamp", Value.vStr env.responseTime)]) := by
  obtain ⟨⟨s, hs⟩, ts, hts⟩ := validate_true_facts event h
  have hst : ∀ (e : Env) (w' : World), store_in_dynamodb e w' event =
      if e.dbFails then (w', false)
      else ({ w' with dynamo := dynamoPut w'.dynamo s (setKey (convert_floats_to_decimal event) "lambda_processed_at" (Value.vStr e.processedAt)) }, true) :=
    fun e w' => store_on_valid e w' event s hs
  have har : ∀ (e : Env) (w' : World), archive_to_s3 e w' event =
      if e.s3Fails then (w', false)
      else ({ w' with s3 := w'.s3 ++
          [⟨archiveKey ts s (strTake e.uuidHex 8), json_dumps (some 2) event, s,
            e.ingestionTime⟩] }, true) :=
    fun e w' => archive_on_valid e w' event ts s hts hs
  refine ⟨?_, ?_, ?_, ?_⟩
  · unfold Telemetry.lambda_handler
    rw [h]
    cases hdb : env.dbFails <;> cases hs3 : env.s3Fails <;>
      simp [hst, har, hdb, hs3]
  · rw [hst]; simp
  · rw [har]; simp
  · unfold Telemetry.lambda_handler
    rw [h]
    cases hs3 : env.s3Fails <;>
      simp [hst, har, hs3] <;> exact ⟨_, rfl⟩

/-- Witness for C3 at the specification scenario record with both fault
patterns exercised on an empty world. -/
theorem C3_failures_isolated_witness :
    ((Telemetry.lambda_handler ⟨false, false, "p", "i", "r", "u"⟩ ⟨[], []⟩
        [("station_id", Value.vStr "station-01"), ("battery_available", Value.vInt 12),
         ("timestamp", Value.vStr "2024-01-15T14:23:45Z")]).2.s3 =
      (archive_to_s3 ⟨false, false, "p", "i", "r", "u"⟩ ⟨[], []⟩
        [("station_id", Value.vStr "station-01"), ("battery_available", Value.vInt 12),
         ("timestamp", Value.vStr "2024-01-15T14:23:45Z")]).1.s3) ∧
    (store_in_dynamodb { (⟨false, false, "p", "i", "r", "u"⟩ : Env) with dbFails := true }
        ⟨[], []⟩
        [("station_id", Value.vStr "station-01"), ("battery_available", Value.vInt 12),
         ("timestamp", Value.vStr "2024-01-15T14:23:45Z")] = (⟨[], []⟩, false)) ∧
    (archive_to_s3 { (⟨false, false, "p", "i", "r", "u"⟩ : Env) with s3Fails := true }
        ⟨[], []⟩
        [("station_id", Value.vStr "station-01"), ("battery_available", Value.vInt 12),
         ("timestamp", Value.vStr "2024-01-15T14:23:45Z")] = (⟨[], []⟩, false)) ∧
    (∃ m, (Telemetry.lambda_handler
        { (⟨false, false, "p", "i", "r", "u"⟩ : Env) with dbFails := true } ⟨[], []⟩
        [("station_id", Value.vStr "station-01"), ("battery_available", Value.vInt 12),
         ("timestamp", Value.vStr "2024-01-15T14:23:45Z")]).1.body =
      json_dumps none
        [("message", Value.vStr m),
         ("station_id", (getKey
            [("station_id", Value.vStr "station-01"), ("battery_available", Value.vInt 12),
             ("timestamp", Value.vStr "2024-01-15T14:23:45Z")] "station_id").getD Value.vNone),
         ("dynamodb_success", Value.vBool false),
         ("s3_success", Value.vBool (!(false : Bool))),
         ("timestamp", Value.vStr "r")]) :=
  C3_failures_isolated ⟨false, false, "p", "i", "r", "u"⟩ ⟨[], []⟩
    [("station_id", Value.vStr "station-01"), ("battery_available", Value.vInt 12),
     ("timestamp", Value.vStr "2024-01-15T14:23:45Z")] (by decide)

/-- C5: ingesting the same valid record twice (with fresh random suffixes
whose first eight characters differ) leaves the fast store with exactly
one row keyed by the station id — the second upsert wholly replaces the
first — and appends two archival objects whose keys differ. -/
theorem C5_idempotence (env1 env2 : Env) (w : World) (event : Record) (s : String)
    (h : validate_telemetry event = (true, none))
    (hs : getKey event "station_id" = some (Value.vStr s))
    (hdb1 : env1.dbFails = false) (hs31 : env1.s3Fails = false)
    (hdb2 : env2.dbFails = false) (hs32 : env2.s3Fails = false)
    (hu : strTake env1.uuidHex 8 ≠ strTake env2.uuidHex 8) :
    (((Telemetry.lambda_handler env2
        (Telemetry.lambda_handler env1 w event).2 event).2.dynamo.filter
          fun kv => kv.1 = s).length = 1) ∧
    (∃ o1 o2, (Telemetry.lambda_handler env2
        (Telemetry.lambda_handler env1 w event).2 event).2.s3 =
      w.s3 ++ [o1, o2] ∧ o1.key ≠ o2.key) := by
  obtain ⟨-, ts, hts⟩ := validate_true_facts event h
  have hst : ∀ (e : Env) (w' : World), store_in_dynamodb e w' event =
      if e.dbFails then (w', false)
      else ({ w' with dynamo := dynamoPut w'.dynamo s (setKey (convert_floats_to_decimal event) "lambda_processed_at" (Value.vStr e.processedAt)) }, true) :=
    fun e w' => store_on_valid e w' event s hs
  have har : ∀ (e : Env) (w' : World), archive_to_s3 e w' event =
      if e.s3Fails then (w', false)
      else ({ w' with s3 := w'.s3 ++
          [⟨archiveKey ts s (strTake e.uuidHex 8), json_dumps (some 2) event, s,
            e.ingestionTime⟩] }, true) :=
    fun e w' => archive_on_valid e w' event ts s hts hs
  constructor
  · unfold Telemetry.lambda_handler
    rw [h]
    simp [hst, har, hdb1, hs31, hdb2, hs32, dynamoPut_count]
  · refine ⟨⟨archiveKey ts s (strTake env1.uuidHex 8), json_dumps (some 2) event, s,
        env1.ingestionTime⟩,
      ⟨archiveKey ts s (strTake env2.uuidHex 8), json_dumps (some 2) event, s,
        env2.ingestionTime⟩, ?_, archiveKey_ne ts s _ _ hu⟩
    unfold Telemetry.lambda_handler
    rw [h]
    simp [hst, har, hdb1, hs31, hdb2, hs32]

/-- Witness for C5: the scenario record ingested twice into an empty
world with two distinct uuid draws. -/
theorem C5_idempotence_witness :
    (((Telemetry.lambda_handler ⟨false, false, "p2", "i2", "r2", "ffff0000ffff0000ffff0000ffff0000"⟩
        (Telemetry.lambda_handler ⟨false, false, "p1", "i1", "r1", "0123456789abcdef0123456789abcdef"⟩
          ⟨[], []⟩
          [("station_id", Value.vStr "station-01"), ("battery_available", Value.vInt 12),
           ("timestamp", Value.vStr "2024-01-15T14:23:45Z")]).2
        [("station_id", Value.vStr "station-01"), ("battery_available", Value.vInt 12),
         ("timestamp", Value.vStr "2024-01-15T14:23:45Z")]).2.dynamo.filter
          fun kv => kv.1 = "station-01").length = 1) ∧
    (∃ o1 o2, (Telemetry.lambda_handler ⟨false, false, "p2", "i2", "r2", "ffff0000ffff0000ffff0000ffff0000"⟩
        (Telemetry.lambda_handler ⟨false, false, "p1", "i1", "r1", "0123456789abcdef0123456789abcdef"⟩
          ⟨[], []⟩
          [("station_id", Value.vStr "station-01"), ("battery_available", Value.vInt 12),
           ("timestamp", Value.vStr "2024-01-15T14:23:45Z")]).2
        [("station_id", Value.vStr "station-01"), ("battery_available", Value.vInt 12),
         ("timestamp", Value.vStr "2024-01-15T14:23:45Z")]).2.s3 =
      ([] : List S3Object) ++ [o1, o2] ∧ o1.key ≠ o2.key) :=
  C5_idempotence ⟨false, false, "p1", "i1", "r1", "0123456789abcdef0123456789abcdef"⟩
    ⟨false, false, "p2", "i2", "r2", "ffff0000ffff0000ffff0000ffff0000"⟩
    ⟨[], []⟩
    [("station_id", Value.vStr "station-01"), ("battery_available", Value.vInt 12),
     ("timestamp", Value.vStr "2024-01-15T14:23:45Z")] "station-01"
    (by decide) rfl (by decide) (by decide) (by decide) (by decide) (by decide)

/-- C6: for a validated record, the archival write succeeds exactly when
the object store accepts it, appending one object whose body is the
serialization of the full original record (floats as JSON numbers, not
the Decimal-normalized copy) and whose key is
telemetry/year=Y/month=MM/day=DD/sid_YYYYMMDD_HHMMSS_uuid8.json with
every date and time component taken from the parsed timestamp field of
the record itself, month and day zero-padded to two digits, and uuid8 the
first eight characters of the random hex draw. -/
theorem C6_archive_key_and_body (env : Env) (w : World) (event : Record)
    (ts : PyDateTime) (s : String)
    (hts : parseRecordTimestamp event = Except.ok ts)
    (hs : getKey event "station_id" = some (Value.vStr s))
    (hfail : env.s3Fails = false) (hlen : env.uuidHex.data.length = 32) :
    archive_to_s3 env w event =
      ({ w with s3 := w.s3 ++
          [{ key := "telemetry/year=" ++ toString ts.year ++ "/month=" ++ padNum 2 ts.month ++
               "/day=" ++ padNum 2 ts.day ++ "/" ++ s ++ "_" ++
               padNum 4 ts.year ++ padNum 2 ts.month ++ padNum 2 ts.day ++ "_" ++
               padNum 2 ts.hour ++ padNum 2 ts.minute ++ padNum 2 ts.second ++ "_" ++
               strTake env.uuidHex 8 ++ ".json",
             body := json_dumps (some 2) event,
             metaStationId := s,
             metaIngestionTime := env.ingestionTime }] }, true) ∧
    (strTake env.uuidHex 8).data.length = 8 := by
  constructor
  · rw [archive_on_valid env w event ts s hts hs, if_neg (by simp [hfail])]
    rfl
  · simp [strTake, hlen]

/-- Witness for C6 at the specification scenario record: the key is the
partitioned path of 2024-01-15 14:23:45. -/
theorem C6_archive_key_and_body_witness :
    archive_to_s3 ⟨false, false, "p", "i", "r", "0123456789abcdef0123456789abcdef"⟩ ⟨[], []⟩
        [("station_id", Value.vStr "station-01"), ("battery_available", Value.vInt 12),
         ("timestamp", Value.vStr "2024-01-15T14:23:45Z")] =
      ({ dynamo := [], s3 := [] ++
          [{ key := "telemetry/year=" ++ toString (2024 : Nat) ++ "/month=" ++ padNum 2 1 ++
               "/day=" ++ padNum 2 15 ++ "/" ++ "station-01" ++ "_" ++
               padNum 4 2024 ++ padNum 2 1 ++ padNum 2 15 ++ "_" ++
               padNum 2 14 ++ padNum 2 23 ++ padNum 2 45 ++ "_" ++
               strTake "0123456789abcdef0123456789abcdef" 8 ++ ".json",
             body := json_dumps (some 2)
               [("station_id", Value.vStr "station-01"), ("battery_available", Value.vInt 12),
                ("timestamp", Value.vStr "2024-01-15T14:23:45Z")],
             metaStationId := "station-01",
             metaIngestionTime := "i" }] }, true) ∧
    (strTake "0123456789abcdef0123456789abcdef" 8).data.length = 8 :=
  C6_archive_key_and_body ⟨false, false, "p", "i", "r", "0123456789abcdef0123456789abcdef"⟩
    ⟨[], []⟩
    [("station_id", Value.vStr "station-01"), ("battery_available", Value.vInt 12),
     ("timestamp", Value.vStr "2024-01-15T14:23:45Z")]
    ⟨2024, 1, 15, 14, 23, 45, 0, some 0⟩ "station-01" rfl rfl (by decide) (by decide)

/-! ## Claim theorem about the query API -/

/-- C7: when a station id is absent from the fast store, the lookup
returns None as a valid non-error outcome (while a store failure
raises, an error), and the API layer maps the absent row to a 404
response whose body is the Not-found object naming the id; a store-read
failure instead yields a 500 response. -/
theorem C7_not_found (store : List (String × Record)) (sid : String) (event : Record)
    (habs : Api.lookupRow store sid = none)
    (hsid : sid.isEmpty = false)
    (hpp : getKey event "pathParameters" =
      some (Value.vDict [("station_id", Value.vStr sid)])) :
    (Api.get_station_by_id ⟨false⟩ store (Value.vStr sid) = Except.ok none) ∧
    (Api.get_station_by_id ⟨true⟩ store (Value.vStr sid) = Except.error PyErr.clientError) ∧
    (Api.handle_get_station_by_id ⟨false⟩ store event =
      Api.create_response 404
        [("error", Value.vStr "Not found"),
         ("message", Value.vStr ("Station " ++ sid ++ " not found"))]) ∧
    (Api.handle_get_station_by_id ⟨true⟩ store event =
      Api.create_response 500
        [("error", Value.vStr "Internal server error"),
         ("message", Value.vStr "Failed to retrieve station")]) := by
  have hget : Api.get_station_by_id ⟨false⟩ store (Value.vStr sid) = Except.ok none := by
    simp [Api.get_station_by_id, habs]
  have hgetF : Api.get_station_by_id ⟨true⟩ store (Value.vStr sid) =
      Except.error PyErr.clientError := by
    simp [Api.get_station_by_id]
  refine ⟨hget, hgetF, ?_, ?_⟩
  · unfold Api.handle_get_station_by_id
    rw [hpp]
    simp [getKey, Api.isFalsy, hsid, hget, pyStr]
  · unfold Api.handle_get_station_by_id
    rw [hpp]
    simp [getKey, Api.isFalsy, hsid, hgetF, pyStr]

/-- Witness for C7 at the specification scenario: station id
does-not-exist against a store holding only station-01. -/
theorem C7_not_found_witness :
    (Api.get_station_by_id ⟨false⟩
        [("station-01", [("station_id", Value.vStr "station-01")])]
        (Value.vStr "does-not-exist") = Except.ok none) ∧
    (Api.get_station_by_id ⟨true⟩
        [("station-01", [("station_id", Value.vStr "station-01")])]
        (Value.vStr "does-not-exist") = Except.error PyErr.clientError) ∧
    (Api.handle_get_station_by_id ⟨false⟩
        [("station-01", [("station_id", Value.vStr "station-01")])]
        [("httpMethod", Value.vStr "GET"), ("path", Value.vStr "/stations/does-not-exist"),
         ("pathParameters", Value.vDict [("station_id", Value.vStr "does-not-exist")])] =
      Api.create_response 404
        [("error", Value.vStr "Not found"),
         ("message", Value.vStr ("Station " ++ "does-not-exist" ++ " not found"))]) ∧
    (Api.handle_get_station_by_id ⟨true⟩
        [("station-01", [("station_id", Value.vStr "station-01")])]
        [("httpMethod", Value.vStr "GET"), ("path", Value.vStr "/stations/does-not-exist"),
         ("pathParameters", Value.vDict [("station_id", Value.vStr "does-not-exist")])] =
      Api.create_response 500
        [("error", Value.vStr "Internal server error"),
         ("message", Value.vStr "Failed to retrieve station")]) :=
  C7_not_found [("station-01", [("station_id", Value.vStr "station-01")])] "does-not-exist"
    [("httpMethod", Value.vStr "GET"), ("path", Value.vStr "/stations/does-not-exist"),
     ("pathParameters", Value.vDict [("station_id", Value.vStr "does-not-exist")])]
    rfl (by decide) rfl

end EVBSS
